import Mathlib

/-!
Verification development for the runtime core of the `hypernova` 2D arena
shooter: the projectile pool (`src/bullet.rs`), the collision resolver
(`src/bullet.rs`), and the camera controller (`src/camera.rs`).

Modelling conventions (shallow embedding of the Rust/Bevy code):

* `f32` values are modelled as exact rationals (`ℚ`).  The code compares a
  Euclidean distance `dist < r` with `r ≥ 0`; in exact arithmetic this is
  equivalent to `dist² < r²`, so the model works with squared distances and
  never needs a square root for comparisons.
* `u32` is modelled as `ℕ`; where the code multiplies two `u32`s the model
  reduces modulo `2 ^ 32` (release-mode wrapping).
* Bevy ECS entities are rows of a list, identified by a `ℕ` id.  A Bevy
  `Query<..., With<C>>` is the sublist of rows whose `C` marker flag is set.
* Bevy `Commands` are deferred: component insertions/removals and entity
  spawns requested during a system run are queued and applied only after the
  system finishes, so queries inside the same run still see the old marker
  components.  Direct mutations through a query (`Mut<T>`) are immediate.
  The system models below thread an explicit command list and apply it at
  the end, exactly mirroring this.
* External library functions that the repository merely calls
  (`simplex_noise_2d` from the `noisy_bevy` crate, `f32::cos`, `f32::sin`,
  `f32::sqrt` behind `Vec3::length`, and `Vec3::normalize_or_zero`) are
  abstracted as fields of an `Ext` record; no claim below depends on their
  values.  Random per-impulse noise offsets (`SmallRng`) are likewise passed
  in as explicit parameters.
-/

/-- 3-component vector (`bevy::math::Vec3`), components as exact rationals. -/
structure V3 where
  x : ℚ
  y : ℚ
  z : ℚ
deriving DecidableEq, Repr

def V3.zero : V3 := ⟨0, 0, 0⟩

def V3.add (a b : V3) : V3 := ⟨a.x + b.x, a.y + b.y, a.z + b.z⟩

def V3.sub (a b : V3) : V3 := ⟨a.x - b.x, a.y - b.y, a.z - b.z⟩

/-- Scalar multiple `v * c` (`glam` vector-times-scalar). -/
def V3.scale (c : ℚ) (v : V3) : V3 := ⟨v.x * c, v.y * c, v.z * c⟩

/-- Squared Euclidean norm. -/
def V3.normSq (v : V3) : ℚ := v.x * v.x + v.y * v.y + v.z * v.z

/-- Squared Euclidean distance (`Vec3::distance_squared`; also the exact
square of `Vec3::distance`). -/
def distSq (a b : V3) : ℚ := (a.sub b).normSq

/-- External math the repository calls but does not define: coherent noise
(`noisy_bevy::simplex_noise_2d`), trigonometry and square root from `std`,
and `Vec3::normalize_or_zero` from `glam`. -/
structure ExtMath where
  noise : ℚ × ℚ → ℚ
  cos : ℚ → ℚ
  sin : ℚ → ℚ
  sqrt : ℚ → ℚ
  normalize_or_zero : V3 → V3

/-- `src/enemy.rs`: `pub const ENEMY_RADIUS: f32 = 40.;` -/
def ENEMY_RADIUS : ℚ := 40

/-- `bevy::render::view::Visibility` (three-valued; `Default` is
`Inherited`, which renders as shown for an entity without a parent). -/
inductive Visibility where
  | Visible
  | Hidden
  | Inherited
deriving DecidableEq, Repr

/-- `src/bullet.rs`: `pub enum BulletType { Ball }`. -/
inductive BulletType where
  | Ball
deriving DecidableEq, Repr

/-- One ECS row for a projectile entity: its id, the mutable components
(`Transform` translation, `Velocity`, `Visibility`) and the marker
components `Bullet` and `InactiveBullet` as flags. -/
structure BulletEnt where
  id : ℕ
  pos : V3
  vel : V3
  visible : Visibility
  bullet : Bool
  inactive : Bool
  ty : BulletType
deriving DecidableEq, Repr

/-- `src/bullet.rs` `BulletMeta` (the mesh handle is an opaque render
resource and is omitted; only `speed` is read by the core). -/
structure BulletMeta where
  speed : ℚ
deriving DecidableEq, Repr

/-- `src/bullet.rs` `init_bullets`: the `BulletMetas` map holds exactly the
ball record with speed 1000. -/
def bulletMetas : BulletType → BulletMeta
  | .Ball => ⟨1000⟩

/-- `src/bullet.rs` `spawn_bullet`: spawns one projectile entity with
default transform and velocity, visibility `Visible`/`Hidden` according to
the `inactive` argument, the `Bullet` marker (always in the spawn tuple),
and the `InactiveBullet` marker when `inactive`. -/
def spawn_bullet (id : ℕ) (inactive : Bool) : BulletEnt :=
  { id := id
    pos := V3.zero
    vel := V3.zero
    visible := if inactive then .Hidden else .Visible
    bullet := true
    inactive := inactive
    ty := .Ball }

/-- `src/bullet.rs` `init_bullets`: ten inactive ball slots at startup. -/
def init_bullets : List BulletEnt :=
  (List.range 10).map (fun i => spawn_bullet i true)

/-- `src/bullet.rs` `SpawnBullet` event. -/
structure SpawnBullet where
  ty : BulletType
  position : V3
  direction : V3
deriving DecidableEq, Repr

/-- Deferred `Commands` queued by `spawn_bullets`: activating a pooled slot
(`remove::<InactiveBullet>().insert(Bullet)`) or spawning an overflow
projectile. -/
inductive SpawnCmd where
  | activate (id : ℕ)
  | overflow (pos vel : V3)
deriving DecidableEq, Repr

/-- Apply the deferred commands of one `spawn_bullets` run; overflow
entities are appended with fresh ids, visibility left at its default
(`Inherited`), carrying `Bullet` but not `InactiveBullet`. -/
def applySpawnCmds (world : List BulletEnt) (fresh : ℕ) :
    List SpawnCmd → List BulletEnt
  | [] => world
  | .activate i :: cs =>
      applySpawnCmds
        (world.map (fun e =>
          if e.id = i then { e with inactive := false, bullet := true } else e))
        fresh cs
  | .overflow p v :: cs =>
      applySpawnCmds
        (world ++ [{ id := fresh, pos := p, vel := v, visible := .Inherited,
                     bullet := true, inactive := false, ty := .Ball }])
        (fresh + 1) cs

/-- `src/bullet.rs` `spawn_bullets` (one frame's run over all pending
`SpawnBullet` events).  The query `balls` filters on `With<InactiveBullet>`;
because the `remove::<InactiveBullet>()` goes through deferred `Commands`,
the query's membership is fixed for the whole run, so
`balls.iter_mut().next()` yields the same first inactive slot for every
event.  Direct writes to translation/velocity/visibility are immediate.
Returns the world after the deferred commands are applied, together with
the number of pool-exhaustion warnings logged. -/
def spawn_bullets (ext : ExtMath) (world : List BulletEnt)
    (events : List SpawnBullet) (fresh : ℕ) : List BulletEnt × ℕ :=
  let slot := (world.find? (fun e => e.inactive)).map (fun e => e.id)
  let r := events.foldl
    (fun (acc : List BulletEnt × List SpawnCmd × ℕ) ev =>
      let speed := (bulletMetas ev.ty).speed
      let bulletVelocity := (ext.normalize_or_zero ev.direction).scale speed
      match slot with
      | some i =>
          (acc.1.map (fun e =>
            if e.id = i then
              { e with pos := ev.position, vel := bulletVelocity,
                       visible := .Visible }
            else e),
           acc.2.1 ++ [.activate i], acc.2.2)
      | none =>
          -- `warn!("Spawning BulletType[..]. Maybe increase initial buffer?")`
          (acc.1, acc.2.1 ++ [.overflow ev.position bulletVelocity],
           acc.2.2 + 1))
    (world, [], 0)
  (applySpawnCmds r.1 fresh r.2.1, r.2.2)

/-- `src/bullet.rs` `despawn_bullets` (one frame's run over all pending
`DespawnBullet` events).  `bullets.get_mut(e)` resolves iff the entity
exists with the `Bullet` marker; marker removal is deferred, so resolution
is against the world at the start of the run.  The visibility write is
immediate; `remove::<Bullet>().insert(InactiveBullet)` is queued and
applied after the run. -/
def despawn_bullets (world : List BulletEnt) (reqs : List ℕ) :
    List BulletEnt :=
  let r := reqs.foldl
    (fun (acc : List BulletEnt × List ℕ) i =>
      if world.any (fun e => e.id == i && e.bullet) then
        (acc.1.map (fun e =>
          if e.id = i then { e with visible := .Hidden } else e),
         acc.2 ++ [i])
      else acc)
    (world, [])
  r.2.foldl
    (fun w i =>
      w.map (fun e =>
        if e.id = i then { e with bullet := false, inactive := true } else e))
    r.1

/-- The two ways `Query::single()` can panic inside `cull_bullets`
(`player.single()` is evaluated before `window.single()`). -/
inductive CullPanic where
  | player
  | window
deriving DecidableEq, Repr

/-- Per-projectile body of the `cull_bullets` loop: an entity with the
`Bullet` marker whose squared distance from the player strictly exceeds
`(physical_width * physical_width) as f32` gets `InactiveBullet` inserted
and its visibility set to `Hidden` (the `Bullet` marker is not removed). -/
def cullStep (p : V3) (w : ℕ) (e : BulletEnt) : BulletEnt :=
  if e.bullet then
    if distSq p e.pos > ((w * w) % 4294967296 : ℕ) then
      { e with inactive := true, visible := .Hidden }
    else e
  else e

/-- `src/bullet.rs` `cull_bullets`.  `player.single()` and
`window.single()` panic unless the query matches exactly one entity; a
panic terminates the frame (modelled as `Except.error`). -/
def cull_bullets (playerQ : List V3) (windowQ : List ℕ)
    (world : List BulletEnt) : Except CullPanic (List BulletEnt) :=
  match playerQ with
  | [p] =>
      match windowQ with
      | [w] => .ok (world.map (cullStep p w))
      | _ => .error .window
  | _ => .error .player

/-- `src/main.rs` `Health` component (the collision resolver reads and
writes `current`; `max` is carried along untouched). -/
structure Health where
  current : ℚ
  max : ℚ
deriving DecidableEq, Repr

/-- One hostile row as seen by `bullet_hit_enemy`:
`Query<(&Transform, &mut Health), With<Enemy>>`. -/
structure EnemyEnt where
  pos : V3
  health : Health
deriving DecidableEq, Repr

/-- Arguments of one `push_screen_shake_with` call:
(intensity, duration, start_time). -/
abbrev ShakePush : Type := ℚ × ℚ × ℚ

/-- The collision query over a projectile world: `With<Bullet>` rows,
projected to (entity id, translation). -/
def bulletQuery (world : List BulletEnt) : List (ℕ × V3) :=
  (world.filter (fun e => e.bullet)).map (fun e => (e.id, e.pos))

/-- Inner loop of `src/bullet.rs` `bullet_hit_enemy` for one hostile:
walk the projectile query in order; when
`enemy.translation.distance(bullet.translation) < ENEMY_RADIUS`
(equivalently, in exact arithmetic, squared distance `< ENEMY_RADIUS²`),
send `DespawnBullet(bullet)`, subtract `1.` from `health.current`, and if
the new health is `≤ 0.01` call `push_screen_shake_with(10., 0.2, now)`.
Returns (final health, despawn requests, shake pushes) in emission order. -/
def hitOneEnemy (pos : V3) (now : ℚ) (h : ℚ) :
    List (ℕ × V3) → ℚ × List ℕ × List ShakePush
  | [] => (h, [], [])
  | b :: bs =>
      if distSq pos b.2 < ENEMY_RADIUS * ENEMY_RADIUS then
        let h' := h - 1
        let rest := hitOneEnemy pos now h' bs
        (rest.1, b.1 :: rest.2.1,
         (if h' ≤ 1 / 100 then [((10 : ℚ), ((1 : ℚ) / 5), now)] else [])
           ++ rest.2.2)
      else hitOneEnemy pos now h bs

/-- `src/bullet.rs` `bullet_hit_enemy` (one collision pass): outer loop
over hostiles, inner loop over the projectile query.  Health writes are
immediate (`Mut<Health>`); despawn events and shake pushes are collected in
emission order. -/
def bullet_hit_enemy (enemies : List EnemyEnt) (bullets : List (ℕ × V3))
    (now : ℚ) : List EnemyEnt × List ℕ × List ShakePush :=
  match enemies with
  | [] => ([], [], [])
  | e :: es =>
      let r := hitOneEnemy e.pos now e.health.current bullets
      let rest := bullet_hit_enemy es bullets now
      ({ e with health := { e.health with current := r.1 } } :: rest.1,
       r.2.1 ++ rest.2.1, r.2.2 ++ rest.2.2)

/-- `src/camera.rs` `ScreenShake`.  `ScreenShake::new` randomizes
`x_offset`/`y_offset` with `SmallRng`; the model takes them as inputs. -/
structure ScreenShake where
  intensity : ℚ
  duration : ℚ
  start_time : ℚ
  x_offset : ℚ × ℚ
  y_offset : ℚ × ℚ
deriving DecidableEq, Repr

/-- `src/camera.rs` `ScreenShake::new` with the two random 2D offsets made
explicit parameters. -/
def ScreenShake.new (intensity duration start_time : ℚ)
    (xo yo : ℚ × ℚ) : ScreenShake :=
  ⟨intensity, duration, start_time, xo, yo⟩

/-- `src/camera.rs` `PlayerCamera` resource. -/
structure PlayerCameraState where
  screen_shake : List ScreenShake
  max_smooth_factor : ℚ
  min_smooth_factor : ℚ
  max_distance : ℚ
  delta : ℚ
  lead_factor : ℚ
  shake_offset : V3
  follow_point : V3
deriving DecidableEq, Repr

/-- `impl Default for PlayerCamera`. -/
def playerCameraDefault : PlayerCameraState :=
  { screen_shake := []
    max_smooth_factor := 1
    min_smooth_factor := 1
    max_distance := 100
    delta := 10
    lead_factor := 1
    shake_offset := V3.zero
    follow_point := V3.zero }

/-- `std::f32::consts::TAU` (only ever fed to the abstracted `cos`/`sin`,
so its numeric value is irrelevant to every claim below). -/
def tau : ℚ := 62831853 / 10000000

/-- `PlayerCamera::push_screen_shake`. -/
def push_screen_shake (pc : PlayerCameraState) (s : ScreenShake) :
    PlayerCameraState :=
  { pc with screen_shake := pc.screen_shake ++ [s] }

/-- `PlayerCamera::push_screen_shake_with` (random offsets explicit). -/
def push_screen_shake_with (pc : PlayerCameraState)
    (intensity duration start_time : ℚ) (xo yo : ℚ × ℚ) :
    PlayerCameraState :=
  push_screen_shake pc (ScreenShake.new intensity duration start_time xo yo)

/-- The live-impulse branch of `apply_screen_shake`: noise sampled on a
circle of radius 5 parameterized by `remaining * TAU`, scaled by
`intensity * remaining`. -/
def contribution (ext : ExtMath) (now : ℚ) (shake : ScreenShake) : V3 :=
  let elapsed := now - shake.start_time
  let remaining := 1 - elapsed / shake.duration
  let current_intensity := shake.intensity * remaining
  let radius : ℚ := 5
  let x_noise := ext.noise
    (shake.x_offset.1 + ext.cos (remaining * tau) * radius,
     shake.x_offset.2 + ext.sin (remaining * tau) * radius)
  let y_noise := ext.noise
    (shake.y_offset.1 + ext.cos (remaining * tau) * radius,
     shake.y_offset.2 + ext.sin (remaining * tau) * radius)
  ⟨x_noise * current_intensity, y_noise * current_intensity, 0⟩

/-- One iteration of the `apply_screen_shake` loop, carrying the running
`shake_offset` and the updated impulses so far: a live impulse overwrites
the offset with its contribution; an expired one zeroes the offset and has
its `start_time` reset to 0. -/
def shakeStep (ext : ExtMath) (now : ℚ)
    (acc : V3 × List ScreenShake) (shake : ScreenShake) :
    V3 × List ScreenShake :=
  let elapsed := now - shake.start_time
  if elapsed < shake.duration then
    (contribution ext now shake, acc.2 ++ [shake])
  else
    (V3.zero, acc.2 ++ [{ shake with start_time := 0 }])

/-- `PlayerCamera::apply_screen_shake` (`now` is
`Time::elapsed_seconds_wrapped()`): update every impulse in order, then
`retain(|s| s.start_time > 0.0)`. -/
def apply_screen_shake (ext : ExtMath) (now : ℚ)
    (pc : PlayerCameraState) : PlayerCameraState :=
  let r := pc.screen_shake.foldl (shakeStep ext now) (pc.shake_offset, [])
  { pc with shake_offset := r.1,
            screen_shake := r.2.filter (fun s => decide (0 < s.start_time)) }

/-- `PlayerCamera::follow_player` (`dt` is `Time::delta_seconds()`);
returns the updated camera state and the written camera translation
`follow_point + shake_offset`.  `Vec3::length` goes through the abstracted
square root. -/
def follow_player (ext : ExtMath) (pc : PlayerCameraState) (player : V3)
    (dt : ℚ) : PlayerCameraState × V3 :=
  let offset : ℚ := 0
  let target : V3 := ⟨player.x + offset, player.y + offset, player.z + offset⟩
  let distance_to_target := ext.sqrt ((target.sub pc.follow_point).normSq)
  let pc' :=
    if distance_to_target < pc.delta then
      { pc with follow_point := target }
    else
      let smooth_factor :=
        if distance_to_target > pc.max_distance then pc.max_smooth_factor
        else
          let t := distance_to_target / pc.max_distance
          pc.min_smooth_factor +
            (pc.max_smooth_factor - pc.min_smooth_factor) * t
      let moved := V3.add pc.follow_point
        ((target.sub pc.follow_point).scale (smooth_factor * dt))
      { pc with follow_point := moved }
  (pc', pc'.follow_point.add pc'.shake_offset)

/-- `src/camera.rs` `update_camera`: `camera.get_single_mut()` and
`player.get_single()` are checked with `let Ok(..) = .. else return`, so a
missing (or duplicated) singleton skips the whole update for the frame.
Returns the updated camera state and camera-translation query. -/
def update_camera (ext : ExtMath) (now dt : ℚ) (pc : PlayerCameraState)
    (playerQ : List V3) (cameraQ : List V3) : PlayerCameraState × List V3 :=
  match cameraQ with
  | [_] =>
      match playerQ with
      | [p] =>
          let pc1 := apply_screen_shake ext now pc
          let (pc2, c') := follow_player ext pc1 p dt
          (pc2, [c'])
      | _ => (pc, cameraQ)
  | _ => (pc, cameraQ)

/-- A concrete instantiation of the external math used by counterexamples
and witnesses (constant noise 1, everything else zero or identity). -/
def ext0 : ExtMath :=
  ⟨fun _ => 1, fun _ => 0, fun _ => 0, fun _ => 0, fun v => v⟩

/-- The hit test of `bullet_hit_enemy` as a Boolean predicate on one
projectile-query row: `distance < ENEMY_RADIUS`, in exact arithmetic
`distance² < ENEMY_RADIUS²`. -/
def inR (pos : V3) (b : ℕ × V3) : Bool :=
  decide (distSq pos b.2 < ENEMY_RADIUS * ENEMY_RADIUS)

/-- What one `apply_screen_shake` pass does to a single impulse record: a
live one is kept as is, an expired one has its `start_time` reset to 0. -/
def expireShake (now : ℚ) (s : ScreenShake) : ScreenShake :=
  if now - s.start_time < s.duration then s else { s with start_time := 0 }

/-- Number of `push_screen_shake_with` calls issued for one hostile that
starts at health `h` and takes `n` hits in one pass: one push per hit whose
resulting health is `≤ 0.01`. -/
def pushCount (h : ℚ) : ℕ → ℕ
  | 0 => 0
  | n + 1 => (if h - 1 ≤ 1 / 100 then 1 else 0) + pushCount (h - 1) n

/-- Eleven identical spawn requests arriving in a single frame. -/
def c1Events : List SpawnBullet :=
  List.replicate 11 ⟨.Ball, ⟨5, 5, 0⟩, ⟨1, 0, 0⟩⟩

/-- A world holding exactly one overflow-allocated projectile: starting
from an empty world (no inactive slot), one spawn request takes the
pool-exhaustion fallback path. -/
def c6World : List BulletEnt :=
  (spawn_bullets ext0 [] [⟨.Ball, ⟨5, 0, 0⟩, ⟨1, 0, 0⟩⟩] 0).1

/-- A shake impulse that is still live at clock 10
(elapsed 5 < duration 100). -/
def c3SLive : ScreenShake := ⟨10, 100, 5, (0, 0), (0, 0)⟩

/-- A shake impulse that has expired at clock 10
(elapsed 5 ≥ duration 1). -/
def c3SExp : ScreenShake := ⟨1, 1, 5, (0, 0), (0, 0)⟩

/-- Camera state tracking a live impulse followed by an expired one. -/
def c3CamEx : PlayerCameraState :=
  { playerCameraDefault with screen_shake := [c3SLive, c3SExp] }

/-- A single impulse live at clock 1. -/
def c3SW : ScreenShake := ⟨2, 5, 1, (0, 0), (0, 0)⟩

/-- Camera state tracking only `c3SW`. -/
def c3CamW : PlayerCameraState :=
  { playerCameraDefault with screen_shake := [c3SW] }

-- Quick sanity checks of the model on small inputs (kept as `example`s).
example : (spawn_bullets ext0 [] [⟨.Ball, ⟨1, 2, 0⟩, ⟨1, 0, 0⟩⟩] 7).2 = 1 :=
  by decide

example :
    (bullet_hit_enemy [⟨V3.zero, ⟨3, 3⟩⟩] [(0, V3.zero)] 0).1 =
      [⟨V3.zero, ⟨2, 3⟩⟩] := by
  norm_num [bullet_hit_enemy, hitOneEnemy, distSq, V3.sub, V3.normSq, V3.zero,
    ENEMY_RADIUS]

/-! ## Helper lemmas: collision resolver -/

lemma hitOneEnemy_fst (pos : V3) (now : ℚ) :
    ∀ (bs : List (ℕ × V3)) (h : ℚ),
      (hitOneEnemy pos now h bs).1 = h - (bs.countP (inR pos) : ℕ) := by
  intro bs
  induction bs with
  | nil => intro h; simp [hitOneEnemy]
  | cons b bs ih =>
      intro h
      by_cases hb : distSq pos b.2 < ENEMY_RADIUS * ENEMY_RADIUS
      · simp only [hitOneEnemy, if_pos hb, List.countP_cons, inR,
          decide_eq_true_eq, hb, if_true]
        rw [ih]
        push_cast
        ring
      · simp only [hitOneEnemy, if_neg hb, List.countP_cons, inR,
          decide_eq_true_eq, hb, if_false]
        rw [ih]
        push_cast
        ring

lemma hitOneEnemy_despawns (pos : V3) (now : ℚ) :
    ∀ (bs : List (ℕ × V3)) (h : ℚ),
      (hitOneEnemy pos now h bs).2.1 =
        (bs.filter (inR pos)).map Prod.fst := by
  intro bs
  induction bs with
  | nil => intro h; simp [hitOneEnemy]
  | cons b bs ih =>
      intro h
      by_cases hb : distSq pos b.2 < ENEMY_RADIUS * ENEMY_RADIUS
      · simp only [hitOneEnemy, if_pos hb, List.filter_cons, inR,
          decide_eq_true_eq, hb, if_true, List.map_cons]
        rw [ih]
      · simp only [hitOneEnemy, if_neg hb, List.filter_cons, inR,
          decide_eq_true_eq, hb, if_false]
        exact ih h

lemma hitOneEnemy_pushes (pos : V3) (now : ℚ) :
    ∀ (bs : List (ℕ × V3)) (h : ℚ),
      (hitOneEnemy pos now h bs).2.2 =
        List.replicate (pushCount h (bs.countP (inR pos)))
          ((10 : ℚ), (1 : ℚ) / 5, now) := by
  intro bs
  induction bs with
  | nil => intro h; simp [hitOneEnemy, pushCount]
  | cons b bs ih =>
      intro h
      by_cases hb : distSq pos b.2 < ENEMY_RADIUS * ENEMY_RADIUS
      · simp only [hitOneEnemy, if_pos hb, List.countP_cons, inR,
          decide_eq_true_eq, hb, if_true]
        rw [ih, pushCount]
        by_cases hp : h - 1 ≤ 1 / 100
        · rw [if_pos hp, if_pos hp, List.replicate_add, List.replicate_one]
        · rw [if_neg hp, if_neg hp, Nat.zero_add, List.nil_append]
      · simp only [hitOneEnemy, if_neg hb, List.countP_cons, inR,
          decide_eq_true_eq, hb, if_false]
        exact ih h

/-- C2: in one collision pass, every hostile's health decreases by exactly
1.0 per projectile strictly inside the collision radius 40 (pairs at
distance ≥ 40 contribute nothing), and the emitted despawn requests are
exactly one reference per in-radius hostile/projectile pair. -/
theorem c2_collision_pairwise_damage_and_despawn
    (enemies : List EnemyEnt) (bullets : List (ℕ × V3)) (now : ℚ) :
    (bullet_hit_enemy enemies bullets now).1 =
      enemies.map (fun e =>
        { e with health :=
            { e.health with current :=
                e.health.current - (bullets.countP (inR e.pos) : ℕ) } }) ∧
    (bullet_hit_enemy enemies bullets now).2.1 =
      (enemies.map (fun e =>
        (bullets.filter (inR e.pos)).map Prod.fst)).flatten := by
  induction enemies with
  | nil => exact ⟨rfl, rfl⟩
  | cons e es ih =>
      constructor
      · simp only [bullet_hit_enemy, List.map_cons]
        rw [hitOneEnemy_fst, ih.1]
      · simp only [bullet_hit_enemy, List.map_cons]
        rw [hitOneEnemy_despawns, ih.2]
        rfl

/-! ## Helper lemmas: screen shake -/

lemma shakeStep_snd (ext : ExtMath) (now : ℚ)
    (acc : V3 × List ScreenShake) (s : ScreenShake) :
    (shakeStep ext now acc s).2 = acc.2 ++ [expireShake now s] := by
  unfold shakeStep expireShake
  by_cases hl : now - s.start_time < s.duration
  · rw [if_pos hl, if_pos hl]
  · rw [if_neg hl, if_neg hl]

lemma shakeFold_snd (ext : ExtMath) (now : ℚ) :
    ∀ (l : List ScreenShake) (p : V3 × List ScreenShake),
      (l.foldl (shakeStep ext now) p).2 =
        p.2 ++ l.map (expireShake now) := by
  intro l
  induction l with
  | nil => intro p; simp
  | cons s l ih =>
      intro p
      rw [List.foldl_cons, ih, shakeStep_snd, List.map_cons,
        List.append_assoc, List.singleton_append]

lemma apply_screen_shake_shakes (ext : ExtMath) (now : ℚ)
    (pc : PlayerCameraState) :
    (apply_screen_shake ext now pc).screen_shake =
      ((pc.screen_shake.map (expireShake now)).filter
        (fun s => decide (0 < s.start_time))) := by
  show List.filter _
    (List.foldl (shakeStep ext now) (pc.shake_offset, []) pc.screen_shake).2
      = _
  rw [shakeFold_snd, List.nil_append]

/-- C3 amended: after `apply_screen_shake`, the camera's shake offset
equals the *last* impulse's current value — its live contribution when
`elapsed < duration`, and zero when it has expired — regardless of whether
some earlier impulse is still live; every expired impulse has its
`start_time` reset to 0, and exactly the updated impulses with
`start_time > 0` remain tracked. -/
theorem c3_shake_offset_last_impulse (ext : ExtMath) (now : ℚ)
    (pc : PlayerCameraState) (l : List ScreenShake) (s : ScreenShake)
    (hs : pc.screen_shake = l ++ [s]) :
    (apply_screen_shake ext now pc).shake_offset =
      (if now - s.start_time < s.duration then contribution ext now s
       else V3.zero) ∧
    (apply_screen_shake ext now pc).screen_shake =
      ((pc.screen_shake.map (expireShake now)).filter
        (fun x => decide (0 < x.start_time))) := by
  refine ⟨?_, apply_screen_shake_shakes ext now pc⟩
  show (pc.screen_shake.foldl (shakeStep ext now)
    (pc.shake_offset, [])).1 = _
  rw [hs, List.foldl_append, List.foldl_cons, List.foldl_nil]
  unfold shakeStep
  by_cases hl : now - s.start_time < s.duration
  · rw [if_pos hl, if_pos hl]
  · rw [if_neg hl, if_neg hl]

/-- C3 witness: a camera tracking the single live impulse `c3SW` at clock 1
gets exactly that impulse's contribution as its offset. -/
theorem c3_shake_offset_last_impulse_witness :
    c3CamW.screen_shake = [] ++ [c3SW] ∧
    (apply_screen_shake ext0 1 c3CamW).shake_offset =
      (if (1 : ℚ) - c3SW.start_time < c3SW.duration then
        contribution ext0 1 c3SW else V3.zero) :=
  ⟨rfl, (c3_shake_offset_last_impulse ext0 1 c3CamW [] c3SW rfl).1⟩

/-- C3 counterexample: at clock 10 the camera tracks the live impulse
`c3SLive` followed by the expired impulse `c3SExp`; the last-updated
*live* impulse is `c3SLive` and its contribution is nonzero, yet the
resulting shake offset is zero because the expired impulse is updated
last and overwrites it. -/
theorem c3_counterexample_expired_overwrites_live :
    c3CamEx.screen_shake = [c3SLive, c3SExp] ∧
    ((10 : ℚ) - c3SLive.start_time < c3SLive.duration) ∧
    ¬((10 : ℚ) - c3SExp.start_time < c3SExp.duration) ∧
    (apply_screen_shake ext0 10 c3CamEx).shake_offset = V3.zero ∧
    contribution ext0 10 c3SLive ≠ V3.zero := by
  refine ⟨rfl, by norm_num [c3SLive], by norm_num [c3SExp], ?_, ?_⟩
  · norm_num [apply_screen_shake, shakeStep, c3CamEx, c3SLive, c3SExp,
      playerCameraDefault, V3.zero]
  · norm_num [contribution, ext0, c3SLive, V3.zero, tau]

/-- C10: after a shake-update pass every tracked impulse has
`start_time > 0`; consequently an impulse pushed with `start_time ≤ 0`
(e.g. at simulation clock 0) is purged by the next update even while its
elapsed time is still below its duration. -/
theorem c10_live_impulses_have_positive_start (ext : ExtMath) (now : ℚ)
    (pc : PlayerCameraState) :
    (∀ s ∈ (apply_screen_shake ext now pc).screen_shake,
      0 < s.start_time) ∧
    (∀ i d t xo yo, t ≤ 0 → now - t < d →
      ScreenShake.new i d t xo yo ∉
        (apply_screen_shake ext now
          (push_screen_shake_with pc i d t xo yo)).screen_shake) := by
  have key : ∀ (q : PlayerCameraState) (s : ScreenShake),
      s ∈ (apply_screen_shake ext now q).screen_shake → 0 < s.start_time := by
    intro q s hmem
    rw [apply_screen_shake_shakes] at hmem
    have := (List.mem_filter.mp hmem).2
    exact of_decide_eq_true this
  refine ⟨key pc, ?_⟩
  intro i d t xo yo ht _ hmem
  have hpos := key _ _ hmem
  have : (ScreenShake.new i d t xo yo).start_time = t := rfl
  rw [this] at hpos
  exact absurd (lt_of_lt_of_le hpos ht) (lt_irrefl 0)

/-- C10 witness: pushing an impulse with `start_time = 0` at clock 1, with
duration 5 (so still live), is purged by the very next shake update. -/
theorem c10_live_impulses_have_positive_start_witness :
    ((0 : ℚ) ≤ 0 ∧ (1 : ℚ) - 0 < 5) ∧
    ScreenShake.new 2 5 0 (0, 0) (0, 0) ∉
      (apply_screen_shake ext0 1
        (push_screen_shake_with playerCameraDefault 2 5 0
          (0, 0) (0, 0))).screen_shake :=
  ⟨⟨le_refl 0, by norm_num⟩,
   (c10_live_impulses_have_positive_start ext0 1 playerCameraDefault).2
     2 5 0 (0, 0) (0, 0) (le_refl 0) (by norm_num)⟩

/-! ## Pool lifecycle claims -/

/-- C8: a despawn request whose reference does not resolve in the
`With<Bullet>` query (entity already despawned — its `Bullet` marker
removed — or no longer present) is silently skipped and contributes
nothing: the run behaves exactly as if the request were absent, so the
pool state is unchanged by it. -/
theorem c8_stale_despawn_ignored (world : List BulletEnt) (i : ℕ)
    (l1 l2 : List ℕ)
    (h : ∀ e ∈ world, ¬(e.id = i ∧ e.bullet = true)) :
    despawn_bullets world (l1 ++ i :: l2) =
      despawn_bullets world (l1 ++ l2) := by
  have hany : world.any (fun e => e.id == i && e.bullet) = false := by
    rw [List.any_eq_false]
    intro e he
    simp only [Bool.and_eq_true, beq_iff_eq]
    exact fun hc => h e he ⟨hc.1, hc.2⟩
  unfold despawn_bullets
  rw [List.foldl_append, List.foldl_append, List.foldl_cons, hany]
  simp only [Bool.false_eq_true, if_false]

/-- C8 witness: requesting a despawn for the absent entity id 99 leaves a
run over the startup pool identical to the run without it. -/
theorem c8_stale_despawn_ignored_witness :
    (∀ e ∈ init_bullets, ¬(e.id = 99 ∧ e.bullet = true)) ∧
    despawn_bullets init_bullets ([] ++ 99 :: [0]) =
      despawn_bullets init_bullets ([] ++ [0]) :=
  ⟨by decide, c8_stale_despawn_ignored init_bullets 99 [] [0] (by decide)⟩

/-- C9: with a player and a primary window present (width small enough
that `w * w` does not wrap mod `2³²`), culling maps every projectile row
through `cullStep`: a `Bullet`-marked projectile is marked inactive and
hidden exactly when its squared distance from the player strictly exceeds
the squared physical width, and in particular a projectile exactly at the
boundary (`distance² = width²`) is NOT culled. -/
theorem c9_cull_boundary_strict (p : V3) (w : ℕ) (world : List BulletEnt)
    (hw : w * w < 4294967296) :
    cull_bullets [p] [w] world = .ok (world.map (cullStep p w)) ∧
    (∀ e : BulletEnt, distSq p e.pos ≤ ((w * w : ℕ) : ℚ) →
      cullStep p w e = e) ∧
    (∀ e : BulletEnt, e.bullet = true → distSq p e.pos > ((w * w : ℕ) : ℚ) →
      cullStep p w e = { e with inactive := true, visible := .Hidden }) := by
  refine ⟨rfl, ?_, ?_⟩
  · intro e hle
    unfold cullStep
    rw [Nat.mod_eq_of_lt hw]
    by_cases hb : e.bullet
    · rw [if_pos hb, if_neg (not_lt.mpr hle)]
    · rw [if_neg hb]
  · intro e hb hgt
    unfold cullStep
    rw [Nat.mod_eq_of_lt hw, if_pos hb, if_pos hgt]

/-- C9 witness: with width 100, a projectile exactly at squared distance
100² = 10000 from the player is not culled. -/
theorem c9_cull_boundary_strict_witness :
    (100 * 100 < 4294967296) ∧
    distSq V3.zero (⟨100, 0, 0⟩ : V3) ≤ ((100 * 100 : ℕ) : ℚ) ∧
    cullStep V3.zero 100
        ⟨0, ⟨100, 0, 0⟩, V3.zero, .Visible, true, false, .Ball⟩ =
      ⟨0, ⟨100, 0, 0⟩, V3.zero, .Visible, true, false, .Ball⟩ :=
  ⟨by norm_num,
   by norm_num [distSq, V3.sub, V3.normSq, V3.zero],
   (c9_cull_boundary_strict V3.zero 100 [] (by norm_num)).2.1
     ⟨0, ⟨100, 0, 0⟩, V3.zero, .Visible, true, false, .Ball⟩
     (by norm_num [distSq, V3.sub, V3.normSq, V3.zero])⟩

/-- C4 amended: `update_camera` does skip its frame when the main-camera
or player singleton is missing (`get_single` + early return), but
`cull_bullets` does not: `player.single()` (checked first) and
`window.single()` panic — terminating the frame — when the corresponding
singleton is missing, instead of skipping. -/
theorem c4_missing_singleton_behavior :
    (∀ (ext : ExtMath) (now dt : ℚ) (pc : PlayerCameraState)
       (pq : List V3), update_camera ext now dt pc pq [] = (pc, [])) ∧
    (∀ (ext : ExtMath) (now dt : ℚ) (pc : PlayerCameraState) (c : V3),
       update_camera ext now dt pc [] [c] = (pc, [c])) ∧
    (∀ (wq : List ℕ) (world : List BulletEnt),
       cull_bullets [] wq world = .error .player) ∧
    (∀ (p : V3) (world : List BulletEnt),
       cull_bullets [p] [] world = .error .window) :=
  ⟨fun _ _ _ _ _ => rfl, fun _ _ _ _ _ => rfl,
   fun _ _ => rfl, fun _ _ => rfl⟩

/-- C4 counterexample: with no player entity, the per-frame cull is not
"skipped with the world unchanged" — `player.single()` panics, modelled as
an `Except.error` that is distinct from any skipping `Except.ok` outcome. -/
theorem c4_counterexample_cull_panics_without_player :
    cull_bullets [] [1920] init_bullets = Except.error CullPanic.player ∧
    (Except.error CullPanic.player :
      Except CullPanic (List BulletEnt)) ≠ Except.ok init_bullets :=
  ⟨rfl, fun hcontra => Except.noConfusion hcontra⟩

/-- C6 amended: a despawn request that resolves (the referenced entity
still carries the `Bullet` marker — true in particular for every
overflow-allocated projectile, which is spawned with `Bullet` and without
`InactiveBullet`) hides the projectile, removes `Bullet` and inserts
`InactiveBullet`; the overflow instance thereby rejoins the inactive pool
and is eligible for reuse by `spawn_bullets`. -/
theorem c6_resolving_despawn_rejoins_pool (world : List BulletEnt) (i : ℕ)
    (h : world.any (fun e => e.id == i && e.bullet) = true) :
    despawn_bullets world [i] =
      world.map (fun e =>
        if e.id = i then
          { e with visible := .Hidden, bullet := false, inactive := true }
        else e) := by
  have merge : ∀ (w : List BulletEnt),
      (w.map (fun e =>
        if e.id = i then { e with visible := Visibility.Hidden } else e)).map
          (fun e =>
            if e.id = i then { e with bullet := false, inactive := true }
            else e) =
      w.map (fun e =>
        if e.id = i then
          { e with visible := Visibility.Hidden, bullet := false,
                   inactive := true }
        else e) := by
    intro w
    induction w with
    | nil => rfl
    | cons e es ih =>
        by_cases he : e.id = i
        · simp only [List.map_cons, ih]
          simp [he]
        · simp only [List.map_cons, ih]
          simp [he]
  unfold despawn_bullets
  rw [List.foldl_cons, h]
  simp only [if_true, List.foldl_nil, List.nil_append, List.foldl_cons]
  exact merge world

/-- C6 witness: the overflow projectile in `c6World` (id 0, `Bullet` set,
no `InactiveBullet`) is pooled by a resolving despawn request. -/
theorem c6_resolving_despawn_rejoins_pool_witness :
    (c6World.any (fun e => e.id == 0 && e.bullet) = true) ∧
    despawn_bullets c6World [0] =
      c6World.map (fun e =>
        if e.id = 0 then
          { e with visible := .Hidden, bullet := false, inactive := true }
        else e) :=
  ⟨by decide, c6_resolving_despawn_rejoins_pool c6World 0 (by decide)⟩

/-- C6 counterexample: the overflow-allocated projectile (created by the
pool-exhaustion fallback, hence active and unpooled) IS returned to the
inactive pool by a single despawn request, and the next spawn request
reuses it as a pooled slot without any exhaustion warning — refuting
"never returned to the inactive pool". -/
theorem c6_counterexample_overflow_rejoins_pool :
    (c6World.countP (fun e => e.inactive) = 0 ∧
     c6World.countP (fun e => e.bullet) = 1) ∧
    (despawn_bullets c6World [0]).countP (fun e => e.inactive) = 1 ∧
    ((despawn_bullets c6World [0]).find? (fun e => e.inactive)).isSome
      = true ∧
    (spawn_bullets ext0 (despawn_bullets c6World [0])
        [⟨.Ball, ⟨9, 0, 0⟩, ⟨0, 1, 0⟩⟩] 1).2 = 0 ∧
    (spawn_bullets ext0 (despawn_bullets c6World [0])
        [⟨.Ball, ⟨9, 0, 0⟩, ⟨0, 1, 0⟩⟩] 1).1.length = 1 ∧
    (spawn_bullets ext0 (despawn_bullets c6World [0])
        [⟨.Ball, ⟨9, 0, 0⟩, ⟨0, 1, 0⟩⟩] 1).1.countP
      (fun e => !e.inactive && e.bullet) = 1 := by
  refine ⟨⟨?_, ?_⟩, ?_, ?_, ?_, ?_, ?_⟩ <;> decide

/-! ## Death-signal claim -/

lemma pushCount_pos :
    ∀ (n : ℕ) (h : ℚ), 1 / 100 < h → h - (n : ℚ) ≤ 1 / 100 →
      1 ≤ pushCount h n := by
  intro n
  induction n with
  | zero =>
      intro h h1 h2
      push_cast at h2
      exfalso
      linarith
  | succ n ih =>
      intro h h1 h2
      rw [pushCount]
      by_cases hp : h - 1 ≤ 1 / 100
      · rw [if_pos hp]
        exact Nat.le_add_right 1 _
      · rw [if_neg hp, Nat.zero_add]
        have h1' : 1 / 100 < h - 1 := not_le.mp hp
        apply ih (h - 1) h1'
        push_cast at h2 ⊢
        linarith

lemma pushCount_eq_one :
    ∀ (n : ℕ) (h : ℚ), 1 / 100 < h → 1 / 100 < h - ((n : ℚ) - 1) →
      h - (n : ℚ) ≤ 1 / 100 → pushCount h n = 1 := by
  intro n
  induction n with
  | zero =>
      intro h h1 h2 h3
      push_cast at h3
      exfalso
      linarith
  | succ n ih =>
      intro h h1 h2 h3
      rcases n with _ | m
      · rw [pushCount, pushCount]
        rw [if_pos (by push_cast at h3 ⊢; linarith)]
      · have h1' : 1 / 100 < h - 1 := by
          push_cast at h2 ⊢
          linarith
        rw [pushCount, if_neg (not_le.mpr h1'), Nat.zero_add]
        apply ih (h - 1) h1'
        · push_cast at h2 ⊢
          linarith
        · push_cast at h3 ⊢
          linarith

/-- C7 amended: during one collision pass a hostile triggers one shake
impulse — always with intensity 10, duration 0.2 and start time equal to
the simulation clock — for *every* hit that leaves its health at `≤ 0.01`,
not only for the crossing hit.  A hostile crossing from `> 0.01` to
`≤ 0.01` therefore creates at least one impulse, and exactly one precisely
when the crossing hit is its last hit of the pass. -/
theorem c7_one_impulse_per_subthreshold_hit (pos : V3) (now h0 hmax : ℚ)
    (bullets : List (ℕ × V3)) :
    (bullet_hit_enemy [⟨pos, ⟨h0, hmax⟩⟩] bullets now).2.2 =
      List.replicate (pushCount h0 (bullets.countP (inR pos)))
        ((10 : ℚ), (1 : ℚ) / 5, now) ∧
    (1 / 100 < h0 → h0 - (bullets.countP (inR pos) : ℕ) ≤ 1 / 100 →
      1 ≤ pushCount h0 (bullets.countP (inR pos))) ∧
    (1 / 100 < h0 →
      1 / 100 < h0 - ((bullets.countP (inR pos) : ℕ) - 1 : ℚ) →
      h0 - (bullets.countP (inR pos) : ℕ) ≤ 1 / 100 →
      pushCount h0 (bullets.countP (inR pos)) = 1) := by
  refine ⟨?_, pushCount_pos _ _, pushCount_eq_one _ _⟩
  simp only [bullet_hit_enemy]
  rw [hitOneEnemy_pushes]
  simp

/-- C7 witness: the spec's own scenario — health 3.0, three projectiles in
radius in one pass — yields exactly one impulse, because only the third
(crossing) hit leaves health at `0.0 ≤ 0.01`. -/
theorem c7_one_impulse_per_subthreshold_hit_witness :
    ((1 : ℚ) / 100 < 3 ∧
     (3 : ℚ) - (([(0, V3.zero), (1, V3.zero), (2, V3.zero)].countP
        (inR V3.zero) : ℕ)) ≤ 1 / 100 ∧
     (1 : ℚ) / 100 < 3 - ((([(0, V3.zero), (1, V3.zero),
        (2, V3.zero)].countP (inR V3.zero) : ℕ)) - 1)) ∧
    pushCount 3 ([(0, V3.zero), (1, V3.zero), (2, V3.zero)].countP
      (inR V3.zero)) = 1 := by
  have hc : ([(0, V3.zero), (1, V3.zero), (2, V3.zero)] :
      List (ℕ × V3)).countP (inR V3.zero) = 3 := by
    norm_num [inR, distSq, V3.sub, V3.normSq, V3.zero, ENEMY_RADIUS,
      List.countP_cons]
  refine ⟨⟨by norm_num, by rw [hc]; norm_num, by rw [hc]; norm_num⟩, ?_⟩
  exact (c7_one_impulse_per_subthreshold_hit V3.zero 0 3 3 _).2.2
    (by norm_num) (by rw [hc]; norm_num) (by rw [hc]; norm_num)

/-- C7 counterexample: a hostile at health 0.5 hit by two projectiles in
one pass crosses from `> 0.01` to `≤ 0.01`, yet TWO shake impulses are
pushed (the check `health.current <= 0.01` fires on every hit at or past
the threshold), refuting "exactly one". -/
theorem c7_counterexample_two_impulses_one_crossing :
    ((1 : ℚ) / 100 < 1 / 2) ∧
    (bullet_hit_enemy [⟨V3.zero, ⟨1 / 2, 3⟩⟩]
        [(0, V3.zero), (1, V3.zero)] 7).1 =
      [⟨V3.zero, ⟨-(3 / 2), 3⟩⟩] ∧
    ((-(3 / 2) : ℚ) ≤ 1 / 100) ∧
    (bullet_hit_enemy [⟨V3.zero, ⟨1 / 2, 3⟩⟩]
        [(0, V3.zero), (1, V3.zero)] 7).2.2 =
      [((10 : ℚ), (1 : ℚ) / 5, 7), ((10 : ℚ), (1 : ℚ) / 5, 7)] ∧
    ¬((bullet_hit_enemy [⟨V3.zero, ⟨1 / 2, 3⟩⟩]
        [(0, V3.zero), (1, V3.zero)] 7).2.2.length = 1) := by
  refine ⟨by norm_num, ?_, by norm_num, ?_, ?_⟩ <;>
    norm_num [bullet_hit_enemy, hitOneEnemy, distSq, V3.sub, V3.normSq,
      V3.zero, ENEMY_RADIUS]

/-! ## Pool spawn claims -/

/-- C1: starting from the full pool of 10 inactive ball slots, eleven
spawn requests processed within a single frame do NOT use 10 slots plus
one overflow allocation with one warning; because the `InactiveBullet`
removal is deferred, every request matches the same first slot: the run
emits 0 exhaustion warnings, allocates nothing (world still has 10
entities), and exactly one projectile ends up active and visible. -/
theorem c1_eleven_spawns_single_frame_share_one_slot :
    (spawn_bullets ext0 init_bullets c1Events 100).2 = 0 ∧
    (spawn_bullets ext0 init_bullets c1Events 100).1.length = 10 ∧
    (spawn_bullets ext0 init_bullets c1Events 100).1.countP
      (fun e => !e.inactive) = 1 ∧
    (spawn_bullets ext0 init_bullets c1Events 100).1.countP
      (fun e => e.visible == Visibility.Visible) = 1 := by
  refine ⟨?_, ?_, ?_, ?_⟩ <;> decide

/-- C5: the hidden-visibility half of the invariant holds for the startup
slots, but the exclusion-from-collision half does not: every startup slot
is inactive AND hidden AND still carries the `Bullet` marker, so the
collision query sees all 10 of them, and a hostile sitting at the slots'
default position (the origin) takes 10 hits from hidden inactive
projectiles in one pass (health 3 → −7).  Culling likewise deactivates and
hides a projectile without removing its `Bullet` marker. -/
theorem c5_inactive_slots_keep_collision_marker :
    init_bullets.all (fun e =>
      e.inactive && (e.visible == Visibility.Hidden) && e.bullet) = true ∧
    (bulletQuery init_bullets).length = 10 ∧
    (bullet_hit_enemy [⟨V3.zero, ⟨3, 3⟩⟩] (bulletQuery init_bullets) 0).1 =
      [⟨V3.zero, ⟨-7, 3⟩⟩] ∧
    cull_bullets [V3.zero] [100]
        [⟨0, ⟨200, 0, 0⟩, V3.zero, .Visible, true, false, .Ball⟩] =
      .ok [⟨0, ⟨200, 0, 0⟩, V3.zero, .Hidden, true, true, .Ball⟩] := by
  have hr : List.range 10 = [0, 1, 2, 3, 4, 5, 6, 7, 8, 9] := by decide
  refine ⟨by decide, by decide, ?_, ?_⟩
  · norm_num [bullet_hit_enemy, hitOneEnemy, bulletQuery, init_bullets,
      spawn_bullet, hr, distSq, V3.sub, V3.normSq, V3.zero, ENEMY_RADIUS]
  · norm_num [cull_bullets, cullStep, distSq, V3.sub, V3.normSq, V3.zero]
